import Mathlib

/-!
# Shallow embedding of the ai-agent-chat conversation scheduler

This file embeds the conversation scheduler of the repository
(`src/hooks/useConversation.js`), its data model (`src/types/index.js`),
the speaker-selection fallback and prompt construction of
`src/services/aiService.js`, and the submit handler of the chat screen
(`handleSubmit` in the unnamed component file).

Modelling conventions:
* React state cells and their shadow refs (`statusRef`, `messagesRef`, ...)
  collapse into one explicit record `ConvState`; within a single tick there
  is no interleaving, so the ref/state distinction is invisible.
* The two asynchronous upstream calls are the only sources of
  nondeterminism; their outcomes are passed in as a `TickEnv` value.
* The periodic interval (`intervalRef`) is modelled by the boolean
  `timerActive` (`setInterval` sets it, `clearInterval` clears it).
* JS numbers holding budget counts are modelled as `Int` (the code guards
  every decrement, so values never actually drop below zero - proved below).
* `Message.timestamp` (`new Date()`) is real time and carries no logical
  content, so it is omitted from the record.
-/

namespace AgentChat

/-- `MessageType` from `src/types/index.js`. -/
inductive MessageKind where
  | system
  | user
  | agent
deriving DecidableEq, Repr

/-- `ConversationStatus` from `src/types/index.js`. -/
inductive ConversationStatus where
  | setup
  | running
  | paused
  | stopped
deriving DecidableEq, Repr

/-- `AgentType` from `src/types/index.js`. -/
inductive AgentKind where
  | gpt
  | gemini
deriving DecidableEq, Repr

/-- `Message` from `src/types/index.js` (timestamp omitted, see header). -/
structure Message where
  kind : MessageKind
  content : String
  agentName : Option String
deriving DecidableEq, Repr

/-- `AgentConfig` from `src/types/index.js`. -/
structure AgentConfig where
  name : String
  persona : String
  kind : AgentKind
  apiKey : String
  model : Option String
deriving DecidableEq, Repr

/-- `ConversationConfig` from `src/types/index.js`. -/
structure ConversationConfig where
  topic : String
  agents : List AgentConfig
  openaiApiKey : String
  geminiApiKey : String
  systemPrompt : Option String
  maxConversationCount : Option Int
deriving DecidableEq, Repr

/-- The state owned by `useConversation`: the React state cells
`status`, `messages`, `config`, `isProcessing`, the interval cell
`intervalRef` (as a boolean), and the two count refs. -/
structure ConvState where
  status : ConversationStatus
  messages : List Message
  config : Option ConversationConfig
  isProcessing : Bool
  timerActive : Bool
  agentCounts : List (String × Int)
  initialCounts : List (String × Int)
deriving DecidableEq, Repr

/-- JS truthiness conjunction `maxCount && maxCount > 0` used at
`useConversation.js` lines 46 and 101 (0, null and negatives all fail). -/
def budgetEnabled : Option Int → Bool
  | some m => decide (0 < m)
  | none => false

/-- JS truthiness test `configRef.current.maxConversationCount` used at
`useConversation.js` line 210 (resume): truthy iff present and nonzero. -/
def countTruthy : Option Int → Bool
  | some m => decide (m ≠ 0)
  | none => false

/-- Object lookup `agentCountsRef.current[name]` (absent key is
`undefined`, modelled as `none`). -/
def lookupEntry : List (String × Int) → String → Option Int
  | [], _ => none
  | p :: rest, name => if p.1 = name then some p.2 else lookupEntry rest name

/-- `agentCountsRef.current[name] || 0` (`useConversation.js` line 102). -/
def lookupCount (l : List (String × Int)) (name : String) : Int :=
  (lookupEntry l name).getD 0

/-- Object assignment `counts[name] = v`: overwrite in place if the key
exists, otherwise append it. -/
def setCount : List (String × Int) → String → Int → List (String × Int)
  | [], name, v => [(name, v)]
  | p :: rest, name, v =>
      if p.1 = name then (p.1, v) :: rest else p :: setCount rest name v

/-- `agentCountsRef.current[name]--` (`useConversation.js` line 145):
decrement the entry for `name` in place. -/
def decCount : List (String × Int) → String → List (String × Int)
  | [], _ => []
  | p :: rest, name =>
      if p.1 = name then (p.1, p.2 - 1) :: rest else p :: decCount rest name

/-- The guard `agentCountsRef.current[nextAgent.name] > 0` at
`useConversation.js` line 144 (`undefined > 0` is false in JS). -/
def entryPositive (l : List (String × Int)) (name : String) : Bool :=
  match lookupEntry l name with
  | some v => decide (0 < v)
  | none => false

/-- `Object.values(agentCountsRef.current).every(count => count <= 0)`
(`useConversation.js` line 106). -/
def allExhausted : List (String × Int) → Bool
  | [] => true
  | p :: rest => decide (p.2 ≤ 0) && allExhausted rest

/-- `conversationConfig.agents.forEach(agent => counts[agent.name] = m)`
on a fresh object (`useConversation.js` lines 47-52 and 212-215). -/
def initCounts (agents : List AgentConfig) (m : Int) : List (String × Int) :=
  agents.foldl (fun acc a => setCount acc a.name m) []

/-! ## Transcript record texts built by the hook -/

/-- Initial system record, `useConversation.js` lines 61-64. -/
def initialText (topic : String) : String :=
  "주제: " ++ topic ++ "\n\nAI Agent들이 대화를 시작합니다."

/-- Auto-pause system record, `useConversation.js` lines 112-115. -/
def autoPauseText : String :=
  "모든 Agent의 대화 횟수가 소진되어 대화가 일시정지되었습니다. 재개 버튼을 눌러 카운트를 복구하세요."

/-- Generation-failure system record, `useConversation.js` lines 164-167. -/
def errorText (msg : String) : String :=
  "오류가 발생했습니다: " ++ msg

/-- Resume system record, `useConversation.js` lines 219-222. -/
def resumeText (m : Int) : String :=
  "대화가 재개되었습니다. 모든 Agent의 대화 횟수가 " ++ toString m ++ "회로 복구되었습니다."

/-! ## aiService.selectNextSpeaker (aiService.js lines 137-186)

The OpenAI chat call inside the `try` block is asynchronous I/O; its
outcome is a parameter.  `response (some raw)` means the regex
`다음 발언자:\s*(.+)` matched the response text and captured `raw`
(the code then trims it); `response none` means the regex did not match;
`apiError` means the call threw and the `catch` block ran. -/
inductive SelectUpstream where
  | apiError
  | response (decision : Option String)
deriving DecidableEq, Repr

/-- Drop leading whitespace characters from a character list. -/
def dropLeadingWS : List Char → List Char
  | [] => []
  | c :: rest => if c.isWhitespace then dropLeadingWS rest else c :: rest

/-- JS `String.prototype.trim()`: strip whitespace from both ends
(restricted to the common whitespace characters; the claims only ever
apply it to command strings and agent names). -/
def jsTrim (s : String) : String :=
  ⟨(dropLeadingWS (dropLeadingWS s.data).reverse).reverse⟩

/-- JS `String.prototype.startsWith('/')`: does the first character
equal `/`. -/
def startsWithSlash (s : String) : Bool :=
  match s.data with
  | c :: _ => c = '/'
  | [] => false

/-- `agents.find(agent => agent.name === selectedAgentName)`
(`aiService.js` line 173). -/
def findAgent : List AgentConfig → String → Option AgentConfig
  | [], _ => none
  | a :: rest, name => if a.name = name then some a else findAgent rest name

/-- `aiService.selectNextSpeaker`, lines 154-185: on a regex match, look the
trimmed captured name up in the roster; in every other case (no match,
name not in roster, API error) fall back to `agents[0]`
(`none` when the roster is empty, matching JS `undefined`). -/
def selectNextSpeaker (agents : List AgentConfig) (u : SelectUpstream) :
    Option AgentConfig :=
  match u with
  | .apiError => agents.head?
  | .response none => agents.head?
  | .response (some raw) =>
      match findAgent agents (jsTrim raw) with
      | some a => some a
      | none => agents.head?

/-! ## Prompt construction (aiService.js lines 189-202 and 293-301)

`generateAgentResponse` (line 355) declares exactly three parameters
`(agent, conversationHistory, topic)`; the hook passes
`configRef.current.systemPrompt` as a fourth argument
(`useConversation.js` line 138), which JS silently drops.  The prompts
below are therefore built without any shared instruction text. -/

/-- One line of `${msg.agentName || '사용자'}: ${msg.content}` in the two
generator prompts (empty string is falsy in JS). -/
def historyLine (m : Message) : String :=
  (match m.agentName with
   | some n => if n = "" then "사용자" else n
   | none => "사용자") ++ ": " ++ m.content

/-- `conversationHistory.map(...).join('\n')`. -/
def historyText (history : List Message) : String :=
  String.intercalate "\n" (history.map historyLine)

/-- The GPT system prompt template, `aiService.js` lines 194-202. -/
def buildGPTPrompt (agent : AgentConfig) (history : List Message)
    (topic : String) : String :=
  "당신은 \"" ++ agent.name ++ "\"라는 AI Agent입니다.\n페르소나: "
    ++ agent.persona ++ "\n\n현재 대화 주제: " ++ topic
    ++ "\n\n이전 대화 내용:\n" ++ historyText history
    ++ "\n\n위의 대화 맥락을 고려하여 주제에 대해 당신의 페르소나에 맞게 300자 이내로 응답해주세요."

/-- The Gemini prompt template, `aiService.js` lines 293-301. -/
def buildGeminiPrompt (agent : AgentConfig) (history : List Message)
    (topic : String) : String :=
  "당신은 \"" ++ agent.name ++ "\"라는 AI Agent입니다.\n페르소나: "
    ++ agent.persona ++ "\n\n현재 대화 주제: " ++ topic
    ++ "\n\n이전 대화 내용:\n" ++ historyText history
    ++ "\n\n위의 대화 맥락을 고려하여 주제에 대해 당신의 페르소나에 맞게 응답해주세요."

/-- The prompt `generateAgentResponse` builds during a tick.  The hook's
call site also passes `cfg.systemPrompt`, but the callee's parameter list
(`aiService.js` line 355) has no such parameter, so the result depends
only on the agent, the history and the topic. -/
def tickGenerationPrompt (cfg : ConversationConfig) (agent : AgentConfig)
    (history : List Message) : String :=
  match agent.kind with
  | .gpt => buildGPTPrompt agent history cfg.topic
  | .gemini => buildGeminiPrompt agent history cfg.topic

/-! ## The scheduler operations (useConversation.js) -/

/-- Outcome of the `aiService.generateAgentResponse` await at
`useConversation.js` line 134: resolved text, or a thrown error whose
`.message` the catch block reads. -/
inductive GenOutcome where
  | ok (text : String)
  | err (msg : String)
deriving DecidableEq, Repr

/-- Outcomes of the two asynchronous upstream calls made by one tick. -/
structure TickEnv where
  select : SelectUpstream
  gen : GenOutcome
deriving DecidableEq, Repr

/-- `stopAutoConversation` (lines 194-199): `clearInterval`. -/
def stopAutoConversation (s : ConvState) : ConvState :=
  { s with timerActive := false }

/-- `startAutoConversation` (lines 180-191): clear any old interval and
`setInterval` a new one. -/
def startAutoConversation (s : ConvState) : ConvState :=
  { s with timerActive := true }

/-- `initializeConversation` (lines 31-67): install the config, set status
Running, initialize the counts when `maxCount && maxCount > 0`, and seed
the transcript with the topic system record.  (`isProcessing` and the
interval are not touched.) -/
def initializeConversation (s : ConvState) (cfg : ConversationConfig) :
    ConvState :=
  { s with
    config := some cfg
    status := .running
    agentCounts :=
      if budgetEnabled cfg.maxConversationCount then
        initCounts cfg.agents (cfg.maxConversationCount.getD 0)
      else []
    initialCounts :=
      if budgetEnabled cfg.maxConversationCount then
        initCounts cfg.agents (cfg.maxConversationCount.getD 0)
      else []
    messages := [⟨.system, initialText cfg.topic, none⟩] }

/-- The synchronous prefix of `generateNextResponse` (lines 72-79), up to
the first `await`: the entry guard
`if (!configRef.current || isProcessingRef.current) return;` followed by
setting the in-flight flag.  `none` means the guard rejected the tick. -/
def tickStart (s : ConvState) : Option ConvState :=
  if s.config.isNone || s.isProcessing then none
  else some { s with isProcessing := true }

/-- Lines 134-172 of `generateNextResponse`: the generation await and its
two continuations.  On success (lines 141-161): consume one unit of budget
when tracking is enabled and the entry is positive, then append the agent
record.  On a thrown error (catch, lines 162-172): append the error system
record.  The `finally` block (lines 173-176) clears the in-flight flag on
both paths. -/
def finishGeneration (s : ConvState) (cfg : ConversationConfig)
    (agent : AgentConfig) (gen : GenOutcome) : ConvState :=
  match gen with
  | .ok text =>
      { s with
        agentCounts :=
          if budgetEnabled cfg.maxConversationCount
              && entryPositive s.agentCounts agent.name then
            decCount s.agentCounts agent.name
          else s.agentCounts
        messages := s.messages ++ [⟨.agent, text, some agent.name⟩]
        isProcessing := false }
  | .err msg =>
      { s with
        messages := s.messages ++ [⟨.system, errorText msg, none⟩]
        isProcessing := false }

/-- The body of `generateNextResponse` after the in-flight flag is set
(lines 81-176): speaker selection, the budget check (lines 100-130), the
generation call, and the `finally` clearing of the flag on every exit
path.  The `none` config branch is unreachable after `tickStart` but the
`finally` block would still clear the flag there. -/
def tickFinish (s : ConvState) (env : TickEnv) : ConvState :=
  match s.config with
  | none => { s with isProcessing := false }
  | some cfg =>
      match selectNextSpeaker cfg.agents env.select with
      | none => { s with isProcessing := false }
      | some nextAgent =>
          if budgetEnabled cfg.maxConversationCount then
            if lookupCount s.agentCounts nextAgent.name ≤ 0 then
              if allExhausted s.agentCounts then
                { s with
                  status := .paused
                  timerActive := false
                  messages := s.messages ++ [⟨.system, autoPauseText, none⟩]
                  isProcessing := false }
              else { s with isProcessing := false }
            else finishGeneration s cfg nextAgent env.gen
          else finishGeneration s cfg nextAgent env.gen

/-- `generateNextResponse` (lines 70-177) as one state transition, the
upstream outcomes supplied by `env`. -/
def generateNextResponse (s : ConvState) (env : TickEnv) : ConvState :=
  match tickStart s with
  | none => s
  | some s1 => tickFinish s1 env

/-- The interval callback installed by `startAutoConversation`
(lines 185-190): run a tick only when status is Running and no turn is in
flight. -/
def timerTick (s : ConvState) (env : TickEnv) : ConvState :=
  if s.status = .running && !s.isProcessing then generateNextResponse s env
  else s

/-- `pauseConversation` (lines 202-206). -/
def pauseConversation (s : ConvState) : ConvState :=
  stopAutoConversation { s with status := .paused }

/-- `resumeConversation` (lines 208-233): when a config is installed and
`maxConversationCount` is truthy, rebuild the counts at the maximum and
append the reset system record; then set status Running and restart the
interval. -/
def resumeConversation (s : ConvState) : ConvState :=
  let s1 : ConvState :=
    match s.config with
    | some cfg =>
        if countTruthy cfg.maxConversationCount then
          { s with
            agentCounts :=
              initCounts cfg.agents (cfg.maxConversationCount.getD 0)
            messages := s.messages
              ++ [⟨.system, resumeText (cfg.maxConversationCount.getD 0), none⟩] }
        else s
    | none => s
  startAutoConversation { s1 with status := .running }

/-- `stopConversation` (lines 235-239). -/
def stopConversation (s : ConvState) : ConvState :=
  stopAutoConversation { s with status := .stopped }

/-- `addUserMessage` (lines 242-249). -/
def addUserMessage (s : ConvState) (content : String) : ConvState :=
  { s with messages := s.messages ++ [⟨.user, content, none⟩] }

/-- `handleCommand` (lines 252-263): returns the new state and the
`handled` boolean. -/
def handleCommand (s : ConvState) (command : String) : ConvState × Bool :=
  if command = "/중단" then (pauseConversation s, true)
  else if command = "/재개" then (resumeConversation s, true)
  else (s, false)

/-- `handleSubmit` from the chat screen component (unnamed part_001,
lines 33-51): ignore blank input; text starting with `/` goes through
`handleCommand` and is dropped iff handled; everything else is stored via
`addUserMessage`. -/
def handleSubmit (s : ConvState) (inputValue : String) : ConvState :=
  if jsTrim inputValue = "" then s
  else
    let message := jsTrim inputValue
    if startsWithSlash message then
      let r := handleCommand s message
      if r.2 then r.1 else addUserMessage r.1 message
    else addUserMessage s message

/-- The user-kind records of a transcript, in order. -/
def userRecords : List Message → List Message
  | [] => []
  | m :: rest =>
      if m.kind = .user then m :: userRecords rest else userRecords rest

/-! ## Concrete fixtures

A two-agent roster with a budget of one turn per agent, used to exercise
the theorems below on concrete runs. -/

/-- Fixture: GPT agent named `A`. -/
def agentA : AgentConfig := ⟨"A", "persona A", .gpt, "keyA", none⟩

/-- Fixture: Gemini agent named `B`. -/
def agentB : AgentConfig := ⟨"B", "persona B", .gemini, "keyB", none⟩

/-- Fixture: config with roster `[A, B]` and `maxConversationCount = 1`. -/
def cfgTwo : ConversationConfig := ⟨"우주", [agentA, agentB], "okey", "gkey", none, some 1⟩

/-- Fixture: the state before `initialize` (fresh hook state). -/
def emptyState : ConvState := ⟨.setup, [], none, false, false, [], []⟩

/-- Fixture: a tick whose selector chooses `A` and whose generation
resolves with the given text. -/
def envPick (name text : String) : TickEnv :=
  ⟨.response (some name), .ok text⟩

/-- Fixture: state right after `initializeConversation` with `cfgTwo`. -/
def sInit : ConvState := initializeConversation emptyState cfgTwo

/-- Fixture: after agent `A` has spoken once. -/
def sOneSpoken : ConvState := generateNextResponse sInit (envPick "A" "a1")

/-- Fixture: after both agents have spoken once (both budgets at 0). -/
def sTwoSpoken : ConvState := generateNextResponse sOneSpoken (envPick "B" "b1")

/-! ## Helper lemmas about the count maps -/

theorem lookupCount_decCount_le (l : List (String × Int)) (name n : String) :
    lookupCount (decCount l name) n ≤ lookupCount l n := by
  induction l with
  | nil => simp [decCount]
  | cons p rest ih =>
      obtain ⟨pk, pv⟩ := p
      by_cases hp : pk = name
      · subst hp
        by_cases hn : pk = n
        · subst hn
          simp [decCount, lookupCount, lookupEntry]
        · simp [decCount, lookupCount, lookupEntry, hn]
      · by_cases hn : pk = n
        · subst hn
          simp [decCount, lookupCount, lookupEntry, hp]
        · simpa [decCount, lookupCount, lookupEntry, hp, hn] using ih

theorem lookupCount_decCount_ne (l : List (String × Int)) (name n : String)
    (h : n ≠ name) : lookupCount (decCount l name) n = lookupCount l n := by
  induction l with
  | nil => simp [decCount]
  | cons p rest ih =>
      obtain ⟨pk, pv⟩ := p
      by_cases hp : pk = name
      · subst hp
        have hn : ¬ pk = n := fun e => h e.symm
        simp [decCount, lookupCount, lookupEntry, hn]
      · by_cases hn : pk = n
        · subst hn
          simp [decCount, lookupCount, lookupEntry, hp]
        · simpa [decCount, lookupCount, lookupEntry, hp, hn] using ih

theorem lookupCount_decCount_self (l : List (String × Int)) (name : String)
    (v : Int) (h : lookupEntry l name = some v) :
    lookupCount (decCount l name) name = v - 1 := by
  induction l with
  | nil => simp [lookupEntry] at h
  | cons p rest ih =>
      obtain ⟨pk, pv⟩ := p
      by_cases hp : pk = name
      · subst hp
        simp [lookupEntry] at h
        subst h
        simp [decCount, lookupCount, lookupEntry]
      · simp only [lookupEntry, if_neg hp] at h
        simpa [decCount, lookupCount, lookupEntry, hp] using ih h

theorem entryPositive_of_lookupCount_pos (l : List (String × Int)) (n : String)
    (h : 0 < lookupCount l n) : entryPositive l n = true := by
  unfold lookupCount at h
  unfold entryPositive
  cases he : lookupEntry l n with
  | none => rw [he] at h; simp at h
  | some v => rw [he] at h; simpa using h

theorem lookupCount_pos_of_entryPositive (l : List (String × Int)) (n : String)
    (h : entryPositive l n = true) : 0 < lookupCount l n := by
  unfold entryPositive at h
  unfold lookupCount
  cases he : lookupEntry l n with
  | none => rw [he] at h; simp at h
  | some v => rw [he] at h; simpa using h

theorem lookupCount_setCount_self (l : List (String × Int)) (name : String)
    (v : Int) : lookupCount (setCount l name v) name = v := by
  induction l with
  | nil => simp [setCount, lookupCount, lookupEntry]
  | cons p rest ih =>
      obtain ⟨pk, pv⟩ := p
      by_cases hp : pk = name
      · subst hp
        simp [setCount, lookupCount, lookupEntry]
      · simpa [setCount, lookupCount, lookupEntry, hp] using ih

theorem lookupCount_setCount_ne (l : List (String × Int)) (name n : String)
    (v : Int) (h : n ≠ name) :
    lookupCount (setCount l name v) n = lookupCount l n := by
  induction l with
  | nil => simp [setCount, lookupCount, lookupEntry, Ne.symm h]
  | cons p rest ih =>
      obtain ⟨pk, pv⟩ := p
      by_cases hp : pk = name
      · subst hp
        have hn : ¬ pk = n := fun e => h e.symm
        simp [setCount, lookupCount, lookupEntry, hn]
      · by_cases hn : pk = n
        · subst hn
          simp [setCount, lookupCount, lookupEntry, hp]
        · simpa [setCount, lookupCount, lookupEntry, hp, hn] using ih

theorem foldl_setCount_preserve (agents : List AgentConfig) (m : Int)
    (acc : List (String × Int)) (n : String) (h : lookupCount acc n = m) :
    lookupCount (agents.foldl (fun acc a => setCount acc a.name m) acc) n = m := by
  induction agents generalizing acc with
  | nil => simpa using h
  | cons b rest ih =>
      simp only [List.foldl_cons]
      apply ih
      by_cases hb : n = b.name
      · rw [hb, lookupCount_setCount_self]
      · rw [lookupCount_setCount_ne _ _ _ _ hb]; exact h

theorem foldl_setCount_mem (agents : List AgentConfig) (m : Int)
    (a : AgentConfig) (ha : a ∈ agents) : ∀ acc,
    lookupCount (agents.foldl (fun acc ag => setCount acc ag.name m) acc)
      a.name = m := by
  induction ha with
  | head rest =>
      intro acc
      simp only [List.foldl_cons]
      exact foldl_setCount_preserve rest m _ a.name
        (lookupCount_setCount_self acc a.name m)
  | tail b hmem ih =>
      intro acc
      simp only [List.foldl_cons]
      exact ih _

theorem initCounts_lookup (agents : List AgentConfig) (m : Int)
    (a : AgentConfig) (ha : a ∈ agents) :
    lookupCount (initCounts agents m) a.name = m :=
  foldl_setCount_mem agents m a ha []

theorem lookupCount_nonpos_of_all_zero (l : List (String × Int)) (n : String)
    (h : ∀ p ∈ l, p.2 = 0) : lookupCount l n ≤ 0 := by
  induction l with
  | nil => simp [lookupCount, lookupEntry]
  | cons p rest ih =>
      obtain ⟨pk, pv⟩ := p
      have hv : pv = 0 := h (pk, pv) (List.mem_cons_self _ _)
      by_cases hp : pk = n
      · subst hp
        simp [lookupCount, lookupEntry, hv]
      · simpa [lookupCount, lookupEntry, hp] using
          ih fun q hq => h q (List.mem_cons_of_mem _ hq)

theorem allExhausted_of_all_nonpos (l : List (String × Int))
    (h : ∀ p ∈ l, p.2 ≤ 0) : allExhausted l = true := by
  induction l with
  | nil => rfl
  | cons p rest ih =>
      simp only [allExhausted, Bool.and_eq_true, decide_eq_true_eq]
      exact ⟨h p (List.mem_cons_self _ _),
        ih fun q hq => h q (List.mem_cons_of_mem _ hq)⟩

/-! ## Tick-level helper lemmas -/

theorem generateNextResponse_of_blocked (s : ConvState) (env : TickEnv)
    (h : s.config = none ∨ s.isProcessing = true) :
    generateNextResponse s env = s := by
  unfold generateNextResponse
  have hnone : tickStart s = none := by
    unfold tickStart
    rcases h with h | h <;> simp [h]
  rw [hnone]

theorem tickStart_some (s s1 : ConvState) (h : tickStart s = some s1) :
    s1 = { s with isProcessing := true } ∧ s.isProcessing = false ∧
      s.config.isNone = false := by
  unfold tickStart at h
  by_cases hb : (s.config.isNone || s.isProcessing) = true
  · simp [hb] at h
  · simp only [Bool.or_eq_true, not_or, Bool.not_eq_true] at hb
    obtain ⟨h1, h2⟩ := hb
    rw [h1, h2] at h
    simp at h
    exact ⟨h.symm, h2, h1⟩

theorem finishGeneration_isProcessing (s : ConvState) (cfg : ConversationConfig)
    (agent : AgentConfig) (gen : GenOutcome) :
    (finishGeneration s cfg agent gen).isProcessing = false := by
  cases gen <;> rfl

theorem tickFinish_isProcessing (s : ConvState) (env : TickEnv) :
    (tickFinish s env).isProcessing = false := by
  unfold tickFinish
  split
  · rfl
  · split
    · rfl
    · split
      · split
        · split
          · rfl
          · rfl
        · apply finishGeneration_isProcessing
      · apply finishGeneration_isProcessing

theorem entryPositive_elim (l : List (String × Int)) (n : String)
    (h : entryPositive l n = true) :
    ∃ v, lookupEntry l n = some v ∧ 0 < v := by
  unfold entryPositive at h
  cases he : lookupEntry l n with
  | none => rw [he] at h; simp at h
  | some v => rw [he] at h; exact ⟨v, rfl, by simpa using h⟩

theorem finishGeneration_counts (s : ConvState) (cfg : ConversationConfig)
    (agent : AgentConfig) (gen : GenOutcome) :
    (finishGeneration s cfg agent gen).agentCounts = s.agentCounts ∨
    (budgetEnabled cfg.maxConversationCount = true ∧
      entryPositive s.agentCounts agent.name = true ∧
      (finishGeneration s cfg agent gen).agentCounts =
        decCount s.agentCounts agent.name) := by
  cases gen with
  | err m => left; rfl
  | ok t =>
      by_cases hb : (budgetEnabled cfg.maxConversationCount
          && entryPositive s.agentCounts agent.name) = true
      · right
        rw [Bool.and_eq_true] at hb
        refine ⟨hb.1, hb.2, ?_⟩
        simp [finishGeneration, hb.1, hb.2]
      · left
        simp only [finishGeneration]
        rw [if_neg hb]

theorem tickFinish_counts (s : ConvState) (env : TickEnv) :
    (tickFinish s env).agentCounts = s.agentCounts ∨
    ∃ a : AgentConfig, entryPositive s.agentCounts a.name = true ∧
      (tickFinish s env).agentCounts = decCount s.agentCounts a.name := by
  cases hc : s.config with
  | none =>
      left
      unfold tickFinish
      rw [hc]
  | some cfg =>
      cases hsel : selectNextSpeaker cfg.agents env.select with
      | none =>
          left
          unfold tickFinish
          rw [hc]
          dsimp only
          rw [hsel]
      | some nextAgent =>
          have hstep : tickFinish s env =
              if budgetEnabled cfg.maxConversationCount then
                if lookupCount s.agentCounts nextAgent.name ≤ 0 then
                  if allExhausted s.agentCounts then
                    { s with
                      status := .paused
                      timerActive := false
                      messages := s.messages ++ [⟨.system, autoPauseText, none⟩]
                      isProcessing := false }
                  else { s with isProcessing := false }
                else finishGeneration s cfg nextAgent env.gen
              else finishGeneration s cfg nextAgent env.gen := by
            unfold tickFinish
            rw [hc]
            dsimp only
            rw [hsel]
          rw [hstep]
          by_cases hb : budgetEnabled cfg.maxConversationCount = true
          · rw [if_pos hb]
            by_cases hle : lookupCount s.agentCounts nextAgent.name ≤ 0
            · rw [if_pos hle]
              by_cases hex : allExhausted s.agentCounts = true
              · rw [if_pos hex]; left; rfl
              · rw [if_neg hex]; left; rfl
            · rw [if_neg hle]
              rcases finishGeneration_counts s cfg nextAgent env.gen with h | ⟨_, h2, h3⟩
              · left; exact h
              · right; exact ⟨nextAgent, h2, h3⟩
          · rw [if_neg hb]
            rcases finishGeneration_counts s cfg nextAgent env.gen with h | ⟨_, h2, h3⟩
            · left; exact h
            · right; exact ⟨nextAgent, h2, h3⟩

theorem tick_counts_cases (s : ConvState) (env : TickEnv) :
    (generateNextResponse s env).agentCounts = s.agentCounts ∨
    ∃ a : AgentConfig, entryPositive s.agentCounts a.name = true ∧
      (generateNextResponse s env).agentCounts = decCount s.agentCounts a.name := by
  unfold generateNextResponse
  cases hst : tickStart s with
  | none => left; rfl
  | some s1 =>
      obtain ⟨hs1, -, -⟩ := tickStart_some s s1 hst
      subst hs1
      exact tickFinish_counts { s with isProcessing := true } env

theorem tickFinish_counts_nobudget (s : ConvState) (env : TickEnv)
    (cfg : ConversationConfig) (hc : s.config = some cfg)
    (hb : budgetEnabled cfg.maxConversationCount = false) :
    (tickFinish s env).agentCounts = s.agentCounts := by
  unfold tickFinish
  rw [hc]
  dsimp only
  cases hsel : selectNextSpeaker cfg.agents env.select with
  | none => rfl
  | some a =>
      dsimp only
      rw [if_neg (by rw [hb]; exact Bool.false_ne_true)]
      cases hg : env.gen <;> simp [finishGeneration, hb]

theorem tick_run (s : ConvState) (cfg : ConversationConfig) (a : AgentConfig)
    (env : TickEnv) (hc : s.config = some cfg) (hp : s.isProcessing = false)
    (hsel : selectNextSpeaker cfg.agents env.select = some a)
    (hbpos : budgetEnabled cfg.maxConversationCount = true →
      0 < lookupCount s.agentCounts a.name) :
    generateNextResponse s env =
      finishGeneration { s with isProcessing := true } cfg a env.gen := by
  have hstart : tickStart s = some { s with isProcessing := true } := by
    unfold tickStart
    rw [hc, hp]
    simp
  unfold generateNextResponse
  rw [hstart]
  unfold tickFinish
  rw [show ({ s with isProcessing := true } : ConvState).config = some cfg from hc]
  dsimp only
  rw [hsel]
  dsimp only
  by_cases hb : budgetEnabled cfg.maxConversationCount = true
  · rw [if_pos hb, if_neg (not_le.mpr (hbpos hb))]
  · rw [if_neg hb]

/-! ## Small operation-level helper theorems -/

theorem handleCommand_pause (s : ConvState) :
    handleCommand s "/중단" = (pauseConversation s, true) := by
  unfold handleCommand
  rw [if_pos rfl]

theorem handleCommand_resume (s : ConvState) :
    handleCommand s "/재개" = (resumeConversation s, true) := by
  unfold handleCommand
  rw [if_neg (by decide), if_pos rfl]

theorem handleCommand_other (s : ConvState) (cmd : String)
    (h1 : cmd ≠ "/중단") (h2 : cmd ≠ "/재개") :
    handleCommand s cmd = (s, false) := by
  unfold handleCommand
  rw [if_neg h1, if_neg h2]

theorem userRecords_append_nonuser (l : List Message) (m : Message)
    (h : m.kind ≠ .user) : userRecords (l ++ [m]) = userRecords l := by
  induction l with
  | nil => simp [userRecords, h]
  | cons x rest ih =>
      by_cases hx : x.kind = .user <;> simp [userRecords, hx, ih]

theorem resumeConversation_userRecords (s : ConvState) :
    userRecords (resumeConversation s).messages = userRecords s.messages := by
  unfold resumeConversation startAutoConversation
  cases hc : s.config with
  | none => rfl
  | some cfg =>
      dsimp only
      by_cases ht : countTruthy cfg.maxConversationCount = true
      · rw [if_pos ht]
        exact userRecords_append_nonuser _ _ fun h => MessageKind.noConfusion h
      · rw [if_neg ht]

/-! ## The claims -/

/-- C1: the tick entry guard (`generateNextResponse` step 1) makes a tick a
complete no-op whenever no config is installed or the in-flight flag is
set, and every tick that passes the guard first sets the in-flight flag
(changing nothing else) before its asynchronous steps and ends with the
flag cleared on every exit path, the error path included. -/
theorem tick_in_flight_exclusion (s : ConvState) (env : TickEnv) :
    (s.config = none ∨ s.isProcessing = true →
      generateNextResponse s env = s) ∧
    (∀ s1, tickStart s = some s1 →
      s1 = { s with isProcessing := true } ∧
      (tickFinish s1 env).isProcessing = false) := by
  refine ⟨generateNextResponse_of_blocked s env, fun s1 h1 => ?_⟩
  exact ⟨(tickStart_some s s1 h1).1, tickFinish_isProcessing s1 env⟩

theorem tick_in_flight_exclusion_witness :
    generateNextResponse emptyState (envPick "A" "t") = emptyState ∧
    (tickFinish { sInit with isProcessing := true }
      (envPick "A" "t")).isProcessing = false := by
  constructor
  · exact (tick_in_flight_exclusion emptyState (envPick "A" "t")).1 (Or.inl rfl)
  · exact ((tick_in_flight_exclusion sInit (envPick "A" "t")).2
      { sInit with isProcessing := true } (by decide)).2

/-- C2: on a tick with budget tracking enabled, a selected agent whose
remaining count is zero, and all tracked counts zero, the scheduler moves
to Paused, stops the interval, appends exactly the auto-pause system
record, clears the in-flight flag, and changes nothing else (full state
equality). -/
theorem auto_pause_on_full_exhaustion (s : ConvState) (cfg : ConversationConfig)
    (a : AgentConfig) (env : TickEnv)
    (hc : s.config = some cfg) (hp : s.isProcessing = false)
    (_hrun : s.status = .running)
    (hb : budgetEnabled cfg.maxConversationCount = true)
    (hsel : selectNextSpeaker cfg.agents env.select = some a)
    (hz : ∀ p ∈ s.agentCounts, p.2 = 0) :
    generateNextResponse s env =
      { s with
        status := .paused
        timerActive := false
        messages := s.messages ++ [⟨.system, autoPauseText, none⟩]
        isProcessing := false } := by
  have hstart : tickStart s = some { s with isProcessing := true } := by
    unfold tickStart
    rw [hc, hp]
    simp
  unfold generateNextResponse
  rw [hstart]
  unfold tickFinish
  rw [show ({ s with isProcessing := true } : ConvState).config = some cfg
    from hc]
  dsimp only
  rw [hsel]
  dsimp only
  rw [if_pos hb, if_pos (lookupCount_nonpos_of_all_zero _ _ hz),
    if_pos (allExhausted_of_all_nonpos _ fun p hp => le_of_eq (hz p hp))]

theorem auto_pause_on_full_exhaustion_witness :
    generateNextResponse sTwoSpoken (envPick "A" "a2") =
      { sTwoSpoken with
        status := .paused
        timerActive := false
        messages := sTwoSpoken.messages ++ [⟨.system, autoPauseText, none⟩]
        isProcessing := false } :=
  auto_pause_on_full_exhaustion sTwoSpoken cfgTwo agentA (envPick "A" "a2")
    (by decide) (by decide) (by decide) (by decide) (by decide) (by decide)

/-- C3: remaining counts never increase under a tick, pause, stop,
addUserMessage, or a non-resume command; a tick leaves a count unchanged
when tracking is disabled or the count is not positive (the consume
guard); counts that are non-negative stay non-negative; and resume resets
every roster agent's count to exactly the configured maximum. -/
theorem budget_monotone_and_reset (s : ConvState) (env : TickEnv)
    (cfg : ConversationConfig) (a : AgentConfig) (content cmd : String) :
    (∀ n, lookupCount (generateNextResponse s env).agentCounts n ≤
      lookupCount s.agentCounts n) ∧
    (pauseConversation s).agentCounts = s.agentCounts ∧
    (stopConversation s).agentCounts = s.agentCounts ∧
    (addUserMessage s content).agentCounts = s.agentCounts ∧
    (cmd ≠ "/재개" → (handleCommand s cmd).1.agentCounts = s.agentCounts) ∧
    (s.config = some cfg → budgetEnabled cfg.maxConversationCount = false →
      (generateNextResponse s env).agentCounts = s.agentCounts) ∧
    (∀ n, lookupCount s.agentCounts n ≤ 0 →
      lookupCount (generateNextResponse s env).agentCounts n =
        lookupCount s.agentCounts n) ∧
    (∀ n, 0 ≤ lookupCount s.agentCounts n →
      0 ≤ lookupCount (generateNextResponse s env).agentCounts n) ∧
    (s.config = some cfg → budgetEnabled cfg.maxConversationCount = true →
      a ∈ cfg.agents →
      lookupCount (resumeConversation s).agentCounts a.name =
        cfg.maxConversationCount.getD 0) := by
  refine ⟨?_, rfl, rfl, rfl, ?_, ?_, ?_, ?_, ?_⟩
  · intro n
    rcases tick_counts_cases s env with h | ⟨b, hpos, hdec⟩
    · rw [h]
    · rw [hdec]
      exact lookupCount_decCount_le _ _ _
  · intro hne
    by_cases h1 : cmd = "/중단"
    · subst h1
      rw [handleCommand_pause]
      rfl
    · rw [handleCommand_other s cmd h1 hne]
  · intro hc hb
    unfold generateNextResponse
    cases hst : tickStart s with
    | none => rfl
    | some s1 =>
        obtain ⟨hs1, -, -⟩ := tickStart_some s s1 hst
        subst hs1
        exact tickFinish_counts_nobudget _ env cfg hc hb
  · intro n hle
    rcases tick_counts_cases s env with h | ⟨b, hpos, hdec⟩
    · rw [h]
    · rw [hdec]
      by_cases hn : n = b.name
      · subst hn
        exact absurd (lookupCount_pos_of_entryPositive _ _ hpos)
          (not_lt.mpr hle)
      · exact lookupCount_decCount_ne _ _ _ hn
  · intro n hnn
    rcases tick_counts_cases s env with h | ⟨b, hpos, hdec⟩
    · rw [h]; exact hnn
    · rw [hdec]
      by_cases hn : n = b.name
      · subst hn
        obtain ⟨v, hev, hv⟩ := entryPositive_elim _ _ hpos
        rw [lookupCount_decCount_self _ _ _ hev]
        omega
      · rw [lookupCount_decCount_ne _ _ _ hn]
        exact hnn
  · intro hc hb ha
    unfold resumeConversation
    rw [hc]
    dsimp only
    have ht : countTruthy cfg.maxConversationCount = true := by
      cases hm : cfg.maxConversationCount with
      | none => rw [hm] at hb; simp [budgetEnabled] at hb
      | some m =>
          rw [hm] at hb
          have hmpos : 0 < m := by simpa [budgetEnabled] using hb
          simp only [countTruthy, decide_eq_true_eq]
          omega
    rw [if_pos ht]
    exact initCounts_lookup cfg.agents _ a ha

theorem budget_monotone_and_reset_witness :
    lookupCount (generateNextResponse sInit (envPick "A" "a1")).agentCounts
        "A" ≤ lookupCount sInit.agentCounts "A" ∧
    (handleCommand sInit "/hello").1.agentCounts = sInit.agentCounts ∧
    lookupCount (resumeConversation sTwoSpoken).agentCounts "A" = 1 := by
  refine ⟨(budget_monotone_and_reset sInit (envPick "A" "a1") cfgTwo agentA
    "x" "/hello").1 "A", ?_, ?_⟩
  · exact (budget_monotone_and_reset sInit (envPick "A" "a1") cfgTwo agentA
      "x" "/hello").2.2.2.2.1 (by decide)
  · exact (budget_monotone_and_reset sTwoSpoken (envPick "A" "a1") cfgTwo
      agentA "x" "/hello").2.2.2.2.2.2.2.2 (by decide) (by decide) (by decide)

/-- Fixture: a config identical to `cfgTwo` except that it carries a
shared instruction text in `systemPrompt`. -/
def cfgWithInstr : ConversationConfig :=
  { cfgTwo with systemPrompt := some "모든 응답은 반말로 해주세요." }

/-- C4 (code bug): the hook passes `config.systemPrompt` as a fourth
argument at the generation call site, but `generateAgentResponse`
declares only three parameters and no prompt template mentions it, so two
configs differing only in the shared instruction text produce identical
generation prompts for both provider kinds - evaluated here at a concrete
input. -/
theorem shared_instruction_dropped :
    cfgWithInstr.systemPrompt ≠ cfgTwo.systemPrompt ∧
    cfgWithInstr.topic = cfgTwo.topic ∧
    cfgWithInstr.agents = cfgTwo.agents ∧
    cfgWithInstr.maxConversationCount = cfgTwo.maxConversationCount ∧
    tickGenerationPrompt cfgWithInstr agentA sInit.messages =
      tickGenerationPrompt cfgTwo agentA sInit.messages ∧
    tickGenerationPrompt cfgWithInstr agentB sInit.messages =
      tickGenerationPrompt cfgTwo agentB sInit.messages :=
  ⟨by decide, rfl, rfl, rfl, rfl, rfl⟩

/-- C5 counterexample: the claim that no operation leads out of Stopped is
false - `resumeConversation`, invoked on a stopped conversation, sets the
status to Running (the hook has no status guard). -/
theorem stopped_escaped_by_resume :
    (stopConversation sInit).status = .stopped ∧
    (resumeConversation (stopConversation sInit)).status = .running := by
  constructor
  · rfl
  · rfl

/-- C5 (amended): `stop()` from any state ends in Stopped and a second
`stop()` is a no-op; adding a user message or an unrecognized command
leaves the status Stopped; but `resume()` and `pause()` (reachable via the
recognized commands) are not guarded on status and do transition a stopped
conversation to Running resp. Paused. -/
theorem stop_idempotent_but_unguarded (s : ConvState) (content cmd : String) :
    (stopConversation s).status = .stopped ∧
    stopConversation (stopConversation s) = stopConversation s ∧
    (addUserMessage (stopConversation s) content).status = .stopped ∧
    ((handleCommand (stopConversation s) cmd).2 = false →
      (handleCommand (stopConversation s) cmd).1.status = .stopped) ∧
    (resumeConversation (stopConversation s)).status = .running ∧
    (pauseConversation (stopConversation s)).status = .paused := by
  refine ⟨rfl, rfl, rfl, ?_, rfl, rfl⟩
  intro h
  by_cases h1 : cmd = "/중단"
  · subst h1
    rw [handleCommand_pause] at h
    cases h
  · by_cases h2 : cmd = "/재개"
    · subst h2
      rw [handleCommand_resume] at h
      cases h
    · rw [handleCommand_other _ cmd h1 h2]
      rfl

theorem stop_idempotent_but_unguarded_witness :
    stopConversation (stopConversation sInit) = stopConversation sInit ∧
    (handleCommand (stopConversation sInit) "/hello").1.status = .stopped :=
  ⟨(stop_idempotent_but_unguarded sInit "u" "/hello").2.1,
   (stop_idempotent_but_unguarded sInit "u" "/hello").2.2.2.1 (by decide)⟩

/-- C6: when the generation call fails on a tick that reached it, the
scheduler appends exactly one system record carrying the failure message,
clears the in-flight flag, and changes nothing else - status, interval and
budgets included (full state equality). -/
theorem generation_failure_absorbed (s : ConvState) (cfg : ConversationConfig)
    (a : AgentConfig) (env : TickEnv) (msg : String)
    (hc : s.config = some cfg) (hp : s.isProcessing = false)
    (hsel : selectNextSpeaker cfg.agents env.select = some a)
    (hbpos : budgetEnabled cfg.maxConversationCount = true →
      0 < lookupCount s.agentCounts a.name)
    (hgen : env.gen = .err msg) :
    generateNextResponse s env =
      { s with
        messages := s.messages ++ [⟨.system, errorText msg, none⟩]
        isProcessing := false } := by
  rw [tick_run s cfg a env hc hp hsel hbpos, hgen]
  rfl

theorem generation_failure_absorbed_witness :
    generateNextResponse sInit ⟨.response (some "A"), .err "boom"⟩ =
      { sInit with
        messages := sInit.messages ++ [⟨.system, errorText "boom", none⟩]
        isProcessing := false } :=
  generation_failure_absorbed sInit cfgTwo agentA
    ⟨.response (some "A"), .err "boom"⟩ "boom" (by decide) (by decide)
    (by decide) (by decide) rfl

/-- C7: whenever the upstream decision is unparseable, names an agent
outside the roster, or the upstream call fails, `selectNextSpeaker`
returns the first roster entry instead of surfacing an error. -/
theorem selector_falls_back_to_first (a0 : AgentConfig)
    (rest : List AgentConfig) (u : SelectUpstream)
    (h : u = .apiError ∨ u = .response none ∨
      ∃ raw, u = .response (some raw) ∧
        findAgent (a0 :: rest) (jsTrim raw) = none) :
    selectNextSpeaker (a0 :: rest) u = some a0 := by
  rcases h with h | h | ⟨raw, h, hfind⟩
  · subst h; rfl
  · subst h; rfl
  · subst h
    unfold selectNextSpeaker
    dsimp only
    rw [hfind]
    rfl

theorem selector_falls_back_to_first_witness :
    selectNextSpeaker [agentA, agentB] (.response (some "C")) = some agentA :=
  selector_falls_back_to_first agentA [agentB] _
    (Or.inr (Or.inr ⟨"C", rfl, by decide⟩))

/-- C8: a submitted input whose trimmed text is the pause or resume
command performs exactly that transition and stores no user record, while
any other slash-prefixed input falls through `handleCommand` unhandled and
is stored as an ordinary user message. -/
theorem command_interception (s : ConvState) (input : String) :
    (jsTrim input = "/중단" → handleSubmit s input = pauseConversation s) ∧
    (jsTrim input = "/재개" → handleSubmit s input = resumeConversation s) ∧
    userRecords (pauseConversation s).messages = userRecords s.messages ∧
    userRecords (resumeConversation s).messages = userRecords s.messages ∧
    (startsWithSlash (jsTrim input) = true → jsTrim input ≠ "/중단" →
      jsTrim input ≠ "/재개" →
      handleSubmit s input = addUserMessage s (jsTrim input)) := by
  refine ⟨?_, ?_, rfl, resumeConversation_userRecords s, ?_⟩
  · intro h
    unfold handleSubmit
    rw [h, if_neg (by decide : ¬ ("/중단" : String) = ""),
      if_pos (by decide : startsWithSlash "/중단" = true),
      handleCommand_pause]
    rfl
  · intro h
    unfold handleSubmit
    rw [h, if_neg (by decide : ¬ ("/재개" : String) = ""),
      if_pos (by decide : startsWithSlash "/재개" = true),
      handleCommand_resume]
    rfl
  · intro hsw h1 h2
    unfold handleSubmit
    have hne : ¬ jsTrim input = "" := by
      intro he
      rw [he] at hsw
      exact absurd hsw (by decide)
    rw [if_neg hne, if_pos hsw, handleCommand_other s _ h1 h2]
    rfl

theorem command_interception_witness :
    handleSubmit sInit "/중단" = pauseConversation sInit ∧
    handleSubmit sInit "/hello" = addUserMessage sInit "/hello" := by
  constructor
  · exact (command_interception sInit "/중단").1 (by decide)
  · have h := (command_interception sInit "/hello").2.2.2.2
      (by decide) (by decide) (by decide)
    rw [(by decide : jsTrim "/hello" = "/hello")] at h
    exact h

/-- C9 (implicit): the tick guard checks only the config and the in-flight
flag, never the status, so a direct `generateNextResponse` call on a
paused or stopped state runs a full turn (selection, generation, budget
consumption, transcript append); only the interval callback filters on
status = Running, and it is a no-op whenever the status is not Running. -/
theorem tick_guard_ignores_status (s : ConvState) (cfg : ConversationConfig)
    (a : AgentConfig) (env : TickEnv) (text : String)
    (hc : s.config = some cfg) (hp : s.isProcessing = false)
    (hst : s.status = .paused ∨ s.status = .stopped)
    (hsel : selectNextSpeaker cfg.agents env.select = some a)
    (hbpos : budgetEnabled cfg.maxConversationCount = true →
      0 < lookupCount s.agentCounts a.name)
    (hgen : env.gen = .ok text) :
    generateNextResponse s env =
      { s with
        messages := s.messages ++ [⟨.agent, text, some a.name⟩]
        agentCounts :=
          if budgetEnabled cfg.maxConversationCount then
            decCount s.agentCounts a.name
          else s.agentCounts
        isProcessing := false } ∧
    timerTick s env = s := by
  constructor
  · rw [tick_run s cfg a env hc hp hsel hbpos, hgen]
    unfold finishGeneration
    dsimp only
    by_cases hb : budgetEnabled cfg.maxConversationCount = true
    · have hep : entryPositive s.agentCounts a.name = true :=
        entryPositive_of_lookupCount_pos _ _ (hbpos hb)
      have hcond : (budgetEnabled cfg.maxConversationCount &&
          entryPositive s.agentCounts a.name) = true := by
        rw [hb, hep]
        rfl
      rw [if_pos hcond, if_pos hb]
    · have hbf : budgetEnabled cfg.maxConversationCount = false := by
        revert hb
        cases budgetEnabled cfg.maxConversationCount <;> simp
      rw [if_neg (by rw [hbf]; simp), if_neg hb]
  · unfold timerTick
    rcases hst with h | h <;> rw [h] <;> rfl

theorem tick_guard_ignores_status_witness :
    generateNextResponse (pauseConversation sInit) (envPick "A" "a1") =
      { pauseConversation sInit with
        messages := (pauseConversation sInit).messages ++
          [(⟨.agent, "a1", some "A"⟩ : Message)]
        agentCounts :=
          if budgetEnabled cfgTwo.maxConversationCount then
            decCount (pauseConversation sInit).agentCounts "A"
          else (pauseConversation sInit).agentCounts
        isProcessing := false } ∧
    timerTick (pauseConversation sInit) (envPick "A" "a1") =
      pauseConversation sInit :=
  tick_guard_ignores_status (pauseConversation sInit) cfgTwo agentA
    (envPick "A" "a1") "a1" (by decide) (by decide) (Or.inl (by decide))
    (by decide) (by decide) rfl

/-- C10: `addUserMessage` appends exactly one user record carrying the
given content at the end of the transcript and leaves every other state
component - status, config, in-flight flag, interval, both count maps -
unchanged, with the existing records untouched, in every status. -/
theorem addUserMessage_appends_single_user_record (s : ConvState)
    (content : String) :
    (addUserMessage s content).messages =
      s.messages ++ [⟨.user, content, none⟩] ∧
    (addUserMessage s content).status = s.status ∧
    (addUserMessage s content).config = s.config ∧
    (addUserMessage s content).isProcessing = s.isProcessing ∧
    (addUserMessage s content).timerActive = s.timerActive ∧
    (addUserMessage s content).agentCounts = s.agentCounts ∧
    (addUserMessage s content).initialCounts = s.initialCounts ∧
    (addUserMessage s content).messages.take s.messages.length =
      s.messages := by
  refine ⟨rfl, rfl, rfl, rfl, rfl, rfl, rfl, ?_⟩
  show (s.messages ++ [(⟨.user, content, none⟩ : Message)]).take
    s.messages.length = s.messages
  simp

end AgentChat
